import Mathlib

/-!
Verification development for the TraceLab analysis pipeline.

The definitions below are a shallow embedding of the C++ sources:
`src/util.cpp` (string helpers), `src/parsers/perf_parser.cpp`,
`src/parsers/strace_parser.cpp`, `src/collectors/perf_stat.cpp`,
`src/collectors/strace_summary.cpp`, `src/diagnosis/rules.cpp`,
`src/commands/compare.cpp` and `src/qemu.cpp`.

C++ `double` values are modelled as rationals (`Rat`); `long long` as `Int`
with the explicit two's-complement range check that `std::stoll` enforces via
its out-of-range exception.  `std::stod` / `std::stoll` are modelled on their
decimal and scientific forms (the hexadecimal, infinity and NaN forms never
occur in the texts the tools emit and are outside the modelled fragment).
Strings are processed through their underlying character lists so that every
definition is executable.
-/

set_option maxRecDepth 8000

namespace TraceLab

/-- Whitespace set used by `Trim` in `src/util.cpp` (" \t\r\n"). -/
def isTrimWs (c : Char) : Bool :=
  c = ' ' || c = '\t' || c = '\r' || c = '\n'

/-- Whitespace recognised by `istringstream >> token` / `strtod` leading-space
skipping (C locale `isspace`). -/
def isStreamWs (c : Char) : Bool :=
  c = ' ' || c = '\t' || c = '\r' || c = '\n' || c = '\x0b' || c = '\x0c'

/-- Character-level body of `ToLower` from `src/util.cpp`: ASCII uppercase
letters are shifted into lowercase, every other character is unchanged.  The
comparison is on the character code, as the C++ code compares `char` values. -/
def ToLowerChar (ch : Char) : Char :=
  if 65 ≤ ch.toNat ∧ ch.toNat ≤ 90 then Char.ofNat (ch.toNat - 65 + 97) else ch

/-- Embedding of `ToLower` from `src/util.cpp`. -/
def ToLower (value : String) : String :=
  ⟨value.data.map ToLowerChar⟩

/-- Character-list body of `Trim` from `src/util.cpp`: drop the leading and
trailing run of characters from " \t\r\n". -/
def trimChars (l : List Char) : List Char :=
  ((l.dropWhile isTrimWs).reverse.dropWhile isTrimWs).reverse

/-- Embedding of `Trim` from `src/util.cpp`. -/
def Trim (value : String) : String :=
  ⟨trimChars value.data⟩

/-- Embedding of `StartsWith` from `src/util.cpp`. -/
def StartsWith (value : String) (p : String) : Bool :=
  p.data.isPrefixOf value.data

/-- Splits a character list at every occurrence of the separator, keeping
empty segments; models the field loop of `SplitCsv` in
`src/parsers/perf_parser.cpp` and `std::getline` line splitting (the final
segment of a text that ends in a newline is an empty string that every
consumer skips). -/
def splitChar (sep : Char) : List Char → List (List Char)
  | [] => [[]]
  | c :: rest =>
    if c = sep then [] :: splitChar sep rest
    else
      match splitChar sep rest with
      | [] => [[c]]
      | t :: ts => (c :: t) :: ts

/-- Splits a character list at every character satisfying the predicate,
keeping empty segments. -/
def splitIfChar (p : Char → Bool) : List Char → List (List Char)
  | [] => [[]]
  | c :: rest =>
    if p c then [] :: splitIfChar p rest
    else
      match splitIfChar p rest with
      | [] => [[c]]
      | t :: ts => (c :: t) :: ts

/-- Lines of a text as produced by the `std::getline` loops of both parsers. -/
def getLines (text : String) : List String :=
  (splitChar '\n' text.data).map fun l => ⟨l⟩

/-- Embedding of `SplitWhitespace` from `src/parsers/strace_parser.cpp`:
`istringstream >> token` yields the maximal non-whitespace runs. -/
def SplitWhitespace (line : String) : List String :=
  ((splitIfChar isStreamWs line.data).filter fun t => ¬ t.isEmpty).map fun l => ⟨l⟩

/-- Decimal digit test used by the numeric models. -/
def isDigitChar (c : Char) : Bool :=
  48 ≤ c.toNat ∧ c.toNat ≤ 57

/-- Value of a string of decimal digits, most significant first. -/
def digitsToNat (ds : List Char) : Nat :=
  ds.foldl (fun acc d => acc * 10 + (d.toNat - 48)) 0

/-- Sign prefix handling shared by the `strtod` / `strtoll` models: an
optional single `+` or `-`. -/
def splitSign : List Char → Bool × List Char
  | '-' :: rest => (true, rest)
  | '+' :: rest => (false, rest)
  | l => (false, l)

/-- Exponent suffix handling of the `std::stod` model: an `e`/`E` followed by
an optionally signed digit run scales the mantissa; an exponent letter not
followed by digits is not consumed, as `strtod` backs off to the longest
valid prefix. -/
def applyExponent (mantissa : Rat) (l : List Char) : Rat :=
  match l with
  | e :: rest =>
    if e = 'e' ∨ e = 'E' then
      let (eneg, rest2) := splitSign rest
      let eds := rest2.takeWhile isDigitChar
      if eds.isEmpty then mantissa
      else if eneg then mantissa / ((10 ^ digitsToNat eds : Nat) : Rat)
      else mantissa * ((10 ^ digitsToNat eds : Nat) : Rat)
    else mantissa
  | [] => mantissa

/-- Model of `std::stod` (C `strtod`) on its decimal and scientific forms:
skip leading whitespace, read an optional sign, an integer part, an optional
fractional part and an optional exponent, ignoring any trailing characters;
fail when the mantissa holds no digit.

Scope of the model: `strtod` additionally accepts NaN spellings (`nan`,
`NAN(...)`), infinity spellings (`inf`, `INFINITY`) and hexadecimal floats
(`0x1p3`); those values have no counterpart in ℚ and are outside this model,
which returns `none` on a NaN or infinity spelling and reads only the decimal
prefix `0` of a hexadecimal one. Theorems that bound every parsed value
therefore hypothesize inputs free of the characters `n`, `i`, `x` (and their
upper-case forms) that introduce those spellings. Overflow beyond the double
range, on which `std::stod` throws `std::out_of_range` and callers treat the
token as unparsed, is not modelled: the exact rational is kept, so the model
can only yield values (all sharing the sign read from the token) on tokens
the program drops, never the other way round. -/
def stodModel (input : List Char) : Option Rat :=
  let l := input.dropWhile isStreamWs
  let (neg, l) := splitSign l
  let ip := l.takeWhile isDigitChar
  let l := l.dropWhile isDigitChar
  let (fp, l) :=
    match l with
    | '.' :: rest => (rest.takeWhile isDigitChar, rest.dropWhile isDigitChar)
    | _ => ([], l)
  if ip.isEmpty ∧ fp.isEmpty then none
  else
    let mantissa : Rat :=
      (digitsToNat ip : Rat) + (digitsToNat fp : Rat) / ((10 ^ fp.length : Nat) : Rat)
    some (if neg then -(applyExponent mantissa l) else applyExponent mantissa l)

/-- Model of `std::stoll` (base 10): skip leading whitespace, read an optional
sign and a non-empty digit run, ignore trailing characters; out-of-range
values raise `std::out_of_range` in C++, modelled as `none`. -/
def stollModel (input : List Char) : Option Int :=
  let l := input.dropWhile isStreamWs
  let (neg, l) := splitSign l
  let ds := l.takeWhile isDigitChar
  if ds.isEmpty then none
  else
    let v : Int := if neg then -(digitsToNat ds : Int) else (digitsToNat ds : Int)
    if v < -9223372036854775808 ∨ 9223372036854775807 < v then none else some v

/-- Characters erased by the `value.erase(remove(...' '...))` step of
`CanonicalizeNumericText`. -/
def removeSpaces (l : List Char) : List Char :=
  l.filter fun c => c ≠ ' '

/-- Characters remaining after the comma-removal branches. -/
def removeCommas (l : List Char) : List Char :=
  l.filter fun c => c ≠ ','

/-- Comma-to-dot substitution branch of `CanonicalizeNumericText`. -/
def commasToDots (l : List Char) : List Char :=
  l.map fun c => if c = ',' then '.' else c

/-- Number of characters after the last comma (`value.size - last_comma - 1`
in the source); meaningful when at least one comma is present. -/
def digitsAfterLastComma (l : List Char) : Nat :=
  (l.reverse.takeWhile fun c => c ≠ ',').length

/-- Embedding of `CanonicalizeNumericText` from `src/parsers/perf_parser.cpp`:
trim, strip spaces, then apply the comma/dot locale heuristics. -/
def CanonicalizeNumericText (value : String) : String :=
  let v := removeSpaces (trimChars value.data)
  let commaCount := v.count ','
  let dotCount := v.count '.'
  if commaCount > 0 ∧ dotCount = 0 then
    if commaCount ≥ 2 ∨ digitsAfterLastComma v = 3 then ⟨removeCommas v⟩
    else ⟨commasToDots v⟩
  else if commaCount > 0 ∧ dotCount > 0 then ⟨removeCommas v⟩
  else ⟨v⟩

/-- Character filter applied by `ParseNumericCounter` before `std::stod`. -/
def isNumericCounterChar (ch : Char) : Bool :=
  (48 ≤ ch.toNat ∧ ch.toNat ≤ 57) || ch = '.' || ch = '-' || ch = '+' || ch = 'e' || ch = 'E'

/-- Embedding of `ParseNumericCounter` from `src/parsers/perf_parser.cpp`. -/
def ParseNumericCounter (value : String) : Option Rat :=
  let canonical := CanonicalizeNumericText value
  let cleaned := canonical.data.filter isNumericCounterChar
  if cleaned.isEmpty then none
  else stodModel cleaned

/-- Embedding of `SplitCsv` from `src/parsers/perf_parser.cpp`: semicolon
fields when any semicolon is present, comma fields otherwise. -/
def SplitCsv (line : String) : List String :=
  let delimiter := if line.data.contains ';' then ';' else ','
  (splitChar delimiter line.data).map fun l => ⟨l⟩

/-- Parsed subset of `perf stat` counters (`PerfStatData` in
`include/tracelab/collectors.h`), with the member initialisers of the
source as `PerfStatData.init`. -/
structure PerfStatData where
  has_cycles : Bool
  cycles : Rat
  has_instructions : Bool
  instructions : Rat
  has_branches : Bool
  branches : Rat
  has_branch_misses : Bool
  branch_misses : Rat
  has_cache_misses : Bool
  cache_misses : Rat
  has_page_faults : Bool
  page_faults : Rat
deriving DecidableEq

/-- Default-initialised `PerfStatData`. -/
def PerfStatData.init : PerfStatData :=
  ⟨false, 0, false, 0, false, 0, false, 0, false, 0, false, 0⟩

/-- Per-line update of `ParsePerfStatCsvOutput`: the state is the counter set
together with the `parsed_any` flag. -/
def perfStatLine (state : PerfStatData × Bool) (line : String) : PerfStatData × Bool :=
  let (data, parsed_any) := state
  let fields := SplitCsv line
  if fields.length < 3 then (data, parsed_any)
  else
    let maybe_value := Trim (fields.getD 0 "")
    let event := Trim (fields.getD 2 "")
    match ParseNumericCounter maybe_value with
    | none => (data, parsed_any)
    | some v =>
      if event = "cycles" then ({ data with cycles := v, has_cycles := true }, true)
      else if event = "instructions" then ({ data with instructions := v, has_instructions := true }, true)
      else if event = "branches" then ({ data with branches := v, has_branches := true }, true)
      else if event = "branch-misses" then ({ data with branch_misses := v, has_branch_misses := true }, true)
      else if event = "cache-misses" then ({ data with cache_misses := v, has_cache_misses := true }, true)
      else if event = "page-faults" then ({ data with page_faults := v, has_page_faults := true }, true)
      else (data, parsed_any)

/-- Embedding of `ParsePerfStatCsvOutput` from `src/parsers/perf_parser.cpp`;
the C++ bool result and the out-parameter become a pair (parsed data,
`parsed_any`). -/
def ParsePerfStatCsvOutput (text : String) : PerfStatData × Bool :=
  (getLines text).foldl perfStatLine (PerfStatData.init, false)

/-- Embedding of `ParseLongLong` from `src/parsers/strace_parser.cpp`. -/
def ParseLongLong (value : String) : Option Int :=
  stollModel value.data

/-- Embedding of `ParseDouble` from `src/parsers/strace_parser.cpp`: trim,
strip spaces, then the comma/dot substitution without the thousands-grouping
heuristic, then `std::stod`. -/
def ParseDouble (value : String) : Option Rat :=
  let normalized := removeSpaces (trimChars value.data)
  let commaCount := normalized.count ','
  let dotCount := normalized.count '.'
  let normalized :=
    if commaCount > 0 ∧ dotCount = 0 then commasToDots normalized
    else if commaCount > 0 ∧ dotCount > 0 then removeCommas normalized
    else normalized
  stodModel normalized

/-- Single syscall row (`StraceSyscallEntry` in
`include/tracelab/collectors.h`). -/
structure StraceSyscallEntry where
  name : String
  calls : Int
  time_sec : Rat
  errors : Int
deriving DecidableEq

/-- Parsed `strace -c` summary (`StraceSummaryData` in
`include/tracelab/collectors.h`). -/
structure StraceSummaryData where
  entries : List StraceSyscallEntry
  total_time_sec : Rat
  has_total_time : Bool
deriving DecidableEq

/-- Default-initialised `StraceSummaryData`. -/
def StraceSummaryData.init : StraceSummaryData :=
  ⟨[], 0, false⟩

/-- Per-line update of `ParseStraceSummaryOutput`: the state is the summary
data together with the `parsed_any` flag.  The control flow mirrors the
source loop: skip blank/header/separator lines, require five tokens, parse
the time column, divert the total row, then parse calls and errors. -/
def straceLine (state : StraceSummaryData × Bool) (line : String) : StraceSummaryData × Bool :=
  if (Trim line).isEmpty || StartsWith (Trim line) "% time" ||
      StartsWith (Trim line) "------" then
    state
  else if (SplitWhitespace (Trim line)).length < 5 then state
  else
    match ParseDouble ((SplitWhitespace (Trim line)).getD 1 "") with
    | none => state
    | some seconds =>
      if (SplitWhitespace (Trim line)).getLastD "" = "total" then
        ({ state.1 with total_time_sec := seconds, has_total_time := true }, true)
      else
        match ParseLongLong ((SplitWhitespace (Trim line)).getD 3 "") with
        | none => state
        | some calls =>
          ({ state.1 with
              entries := state.1.entries ++
                [⟨(SplitWhitespace (Trim line)).getLastD "", calls, seconds,
                  if (SplitWhitespace (Trim line)).length ≥ 6 then
                    match ParseLongLong ((SplitWhitespace (Trim line)).getD 4 "") with
                    | some e => e
                    | none => 0
                  else 0⟩] }, true)

/-- Embedding of `ParseStraceSummaryOutput` from
`src/parsers/strace_parser.cpp`; the C++ bool result and the out-parameter
become a pair (parsed data, `parsed_any`). -/
def ParseStraceSummaryOutput (text : String) : StraceSummaryData × Bool :=
  (getLines text).foldl straceLine (StraceSummaryData.init, false)

/-- Entry contributed by one input line of the strace summary, if any:
the same per-line conditions as `straceLine`, with the total row and every
skipped or unparseable row contributing nothing.  Used to state that the
parser appends entries in input order. -/
def straceRowEntry (line : String) : Option StraceSyscallEntry :=
  if (Trim line).isEmpty || StartsWith (Trim line) "% time" ||
      StartsWith (Trim line) "------" then
    none
  else if (SplitWhitespace (Trim line)).length < 5 then none
  else
    match ParseDouble ((SplitWhitespace (Trim line)).getD 1 "") with
    | none => none
    | some seconds =>
      if (SplitWhitespace (Trim line)).getLastD "" = "total" then none
      else
        match ParseLongLong ((SplitWhitespace (Trim line)).getD 3 "") with
        | none => none
        | some calls =>
          some ⟨(SplitWhitespace (Trim line)).getLastD "", calls, seconds,
            if (SplitWhitespace (Trim line)).length ≥ 6 then
              match ParseLongLong ((SplitWhitespace (Trim line)).getD 4 "") with
              | some e => e
              | none => 0
            else 0⟩

/-- Collector status pair (`CollectorStatus` in `include/tracelab/util.h`). -/
structure CollectorStatus where
  status : String
  reason : String
deriving DecidableEq

/-- Captured result of a shell command (`CommandResult` in
`include/tracelab/util.h`): decoded exit status and combined output text. -/
structure CommandResult where
  exit_code : Int
  output : String
deriving DecidableEq

/-- Result envelope for a perf collection attempt (`PerfStatResult` in
`include/tracelab/collectors.h`). -/
structure PerfStatResult where
  status : CollectorStatus
  command_exit_code : Int
  timed_out : Bool
  data : PerfStatData
  raw_output : String
deriving DecidableEq

/-- Result envelope for a strace collection attempt (`StraceSummaryResult` in
`include/tracelab/collectors.h`). -/
structure StraceSummaryResult where
  status : CollectorStatus
  command_exit_code : Int
  timed_out : Bool
  data : StraceSummaryData
  raw_output : String
deriving DecidableEq

/-- Embedding of the deterministic tail of `CollectPerfStat`
(`src/collectors/perf_stat.cpp`, after `RunCommandCapture` returns): the
external process execution is supplied as the captured `CommandResult`, and
`can_timeout` records whether the `timeout` wrapper was applied.  The code
parses the captured output unconditionally and then resolves the status,
checking the timeout mark first. -/
def CollectPerfStat (can_timeout : Bool) (run : CommandResult) : PerfStatResult :=
  let timed_out := can_timeout && run.exit_code = 124
  let (data, parsed) := ParsePerfStatCsvOutput run.output
  let status : CollectorStatus :=
    if timed_out then ⟨"error", "perf collector timed out"⟩
    else if parsed then ⟨"ok", ""⟩
    else if run.exit_code = 0 then ⟨"error", "perf output missing expected counters"⟩
    else ⟨"error", "perf command failed with exit code " ++ toString run.exit_code⟩
  ⟨status, run.exit_code, timed_out, data, run.output⟩

/-- Embedding of the deterministic tail of `CollectStraceSummary`
(`src/collectors/strace_summary.cpp`, after `RunCommandCapture` returns),
in the same shape as `CollectPerfStat`. -/
def CollectStraceSummary (can_timeout : Bool) (run : CommandResult) : StraceSummaryResult :=
  let timed_out := can_timeout && run.exit_code = 124
  let (data, parsed) := ParseStraceSummaryOutput run.output
  let status : CollectorStatus :=
    if timed_out then ⟨"error", "strace collector timed out"⟩
    else if parsed then ⟨"ok", ""⟩
    else if run.exit_code = 0 then ⟨"error", "strace output missing expected summary rows"⟩
    else ⟨"error", "strace command failed with exit code " ++ toString run.exit_code⟩
  ⟨status, run.exit_code, timed_out, data, run.output⟩

/-- Snapshot extracted from `/proc/<pid>/status` (`ProcStatusSample` in
`include/tracelab/collectors.h`). -/
structure ProcStatusSample where
  has_max_rss_kb : Bool
  max_rss_kb : Int
  has_voluntary_ctxt_switches : Bool
  voluntary_ctxt_switches : Int
  has_nonvoluntary_ctxt_switches : Bool
  nonvoluntary_ctxt_switches : Int
deriving DecidableEq

/-- Result of the primary workload execution (`WorkloadRunResult` in
`include/tracelab/collectors.h`). -/
structure WorkloadRunResult where
  exit_code : Int
  exit_classification : String
  wall_time_sec : Rat
  proc_sample : ProcStatusSample
  proc_collector_status : CollectorStatus
deriving DecidableEq

/-- Embedding of `IsIoSyscall` from `src/diagnosis/rules.cpp`. -/
def IsIoSyscall (name : String) : Bool :=
  let lower := ToLower name
  lower = "read" || lower = "write" || lower = "pread64" || lower = "pwrite64" ||
  lower = "preadv" || lower = "pwritev" || lower = "readv" || lower = "writev" ||
  lower = "open" || lower = "openat" || lower = "close" || lower = "fsync" ||
  lower = "fdatasync" || lower = "stat" || lower = "fstat" || lower = "lstat" ||
  lower = "newfstatat" || lower = "getdents" || lower = "getdents64"

/-- Derived metrics used by diagnosis rules (`DerivedMetrics` in
`src/diagnosis/rules.cpp`). -/
structure DerivedMetrics where
  has_ipc : Bool
  ipc : Rat
  has_cache_miss_rate : Bool
  cache_miss_rate : Rat
  has_syscall_share : Bool
  syscall_share : Rat
  has_io_share : Bool
  io_share : Rat
  has_top_syscall_share : Bool
  top_syscall_share : Rat
  top_syscall_name : String
  top_syscall_time_sec : Rat
  has_page_fault_rate : Bool
  page_fault_rate : Rat
  has_voluntary_switch_rate : Bool
  voluntary_switch_rate : Rat
  has_max_rss_mb : Bool
  max_rss_mb : Rat
deriving DecidableEq

/-- Embedding of `ComputeDerived` from `src/diagnosis/rules.cpp`.  The
source performs seven independently guarded assignments, each to its own
fields of the default-initialised `derived`; they are written here as one
record literal in which a failed guard leaves the member-initialiser value
(`false` / `0` / the empty name), exactly as in the source.  Each guard is
verbatim from its `if` condition. -/
def ComputeDerived (workload : WorkloadRunResult) (perf : PerfStatResult)
    (strace : StraceSummaryResult) : DerivedMetrics :=
  let ipc_gate :=
    perf.status.status = "ok" ∧ perf.data.has_cycles ∧ perf.data.cycles > 0 ∧
      perf.data.has_instructions
  let cache_gate :=
    perf.status.status = "ok" ∧ perf.data.has_cache_misses ∧ perf.data.has_instructions ∧
      perf.data.instructions > 0
  let syscall_gate :=
    strace.status.status = "ok" ∧ strace.data.has_total_time ∧ workload.wall_time_sec > 0
  let io_gate :=
    ¬ strace.data.entries.isEmpty ∧ strace.data.has_total_time ∧ strace.data.total_time_sec > 0
  let io_time_sec :=
    strace.data.entries.foldl
      (fun acc entry => if IsIoSyscall entry.name then acc + max 0 entry.time_sec else acc) 0
  let top := strace.data.entries.headD ⟨"", 0, 0, 0⟩
  let fault_gate :=
    perf.status.status = "ok" ∧ perf.data.has_page_faults ∧ workload.wall_time_sec > 0
  let switch_gate :=
    workload.proc_sample.has_voluntary_ctxt_switches ∧ workload.wall_time_sec > 0
  { has_ipc := decide ipc_gate
    ipc := if ipc_gate then perf.data.instructions / perf.data.cycles else 0
    has_cache_miss_rate := decide cache_gate
    cache_miss_rate := if cache_gate then perf.data.cache_misses / perf.data.instructions else 0
    has_syscall_share := decide syscall_gate
    syscall_share :=
      if syscall_gate then strace.data.total_time_sec / workload.wall_time_sec else 0
    has_io_share := decide io_gate
    io_share := if io_gate then io_time_sec / strace.data.total_time_sec else 0
    has_top_syscall_share := decide io_gate
    top_syscall_share := if io_gate then top.time_sec / strace.data.total_time_sec else 0
    top_syscall_name := if io_gate then top.name else ""
    top_syscall_time_sec := if io_gate then top.time_sec else 0
    has_page_fault_rate := decide fault_gate
    page_fault_rate := if fault_gate then perf.data.page_faults / workload.wall_time_sec else 0
    has_voluntary_switch_rate := decide switch_gate
    voluntary_switch_rate :=
      if switch_gate then
        (workload.proc_sample.voluntary_ctxt_switches : Rat) / workload.wall_time_sec
      else 0
    has_max_rss_mb := workload.proc_sample.has_max_rss_kb
    max_rss_mb :=
      if workload.proc_sample.has_max_rss_kb then
        (workload.proc_sample.max_rss_kb : Rat) / 1024
      else 0 }

/-- Left-pads a digit string with zeros to the requested width. -/
def padZeros (s : String) (k : Nat) : String :=
  ⟨List.replicate (k - s.length) '0' ++ s.data⟩

/-- Embedding of `FormatNumber` from `src/diagnosis/rules.cpp`
(`std::fixed` / `std::setprecision`): the value rounded to `precision`
decimal digits, zero-padded.  Rounding is half-up via the floor of
`value·10^p + 1/2`; the exact tie behaviour of the C++ stream on binary
doubles is immaterial to every claim below, which never inspect formatted
text produced from ties. -/
def FormatNumber (value : Rat) (precision : Nat) : String :=
  let scaled := value * ((10 ^ precision : Nat) : Rat)
  let n : Int := Int.fdiv (2 * scaled.num + (scaled.den : Int)) (2 * (scaled.den : Int))
  let m := n.natAbs
  let sign := if n < 0 then "-" else ""
  if precision = 0 then sign ++ toString m
  else
    sign ++ toString (m / 10 ^ precision) ++ "." ++ padZeros (toString (m % 10 ^ precision)) precision

/-- Embedding of `AddUniqueLimitation` from `src/diagnosis/rules.cpp`. -/
def AddUniqueLimitation (limitations : List String) (text : String) : List String :=
  if limitations.contains text then limitations else limitations ++ [text]

/-- Embedding of `PopulateLimitations` from `src/diagnosis/rules.cpp`. -/
def PopulateLimitations (workload : WorkloadRunResult) (perf : PerfStatResult)
    (strace : StraceSummaryResult) (mode : String) (limitations : List String) : List String :=
  let limitations :=
    if mode = "qemu" then
      AddUniqueLimitation limitations
        "Perf counters captured under QEMU emulation; compare primarily by wall time and throughput."
    else limitations
  let limitations :=
    if perf.status.status ≠ "ok" then
      let reason := if perf.status.reason.isEmpty then perf.status.status else perf.status.reason
      AddUniqueLimitation limitations ("perf collector not fully usable: " ++ reason)
    else limitations
  let limitations :=
    if strace.status.status ≠ "ok" then
      let reason := if strace.status.reason.isEmpty then strace.status.status else strace.status.reason
      AddUniqueLimitation limitations ("strace collector not fully usable: " ++ reason)
    else limitations
  let limitations :=
    if workload.proc_collector_status.status ≠ "ok" then
      let reason :=
        if workload.proc_collector_status.reason.isEmpty then workload.proc_collector_status.status
        else workload.proc_collector_status.reason
      AddUniqueLimitation limitations ("proc status sampler not fully usable: " ++ reason)
    else limitations
  let limitations :=
    if workload.wall_time_sec > 0 ∧ workload.wall_time_sec < 0.05 then
      AddUniqueLimitation limitations "Workload completed in under 50ms; startup noise may dominate."
    else limitations
  limitations

/-- Single metric citation (`DiagnosisEvidence` in
`include/tracelab/diagnosis.h`). -/
structure DiagnosisEvidence where
  metric : String
  value : String
  detail : String
deriving DecidableEq

/-- Rule-engine output (`DiagnosisResult` in `include/tracelab/diagnosis.h`). -/
structure DiagnosisResult where
  label : String
  confidence : String
  evidence : List DiagnosisEvidence
  limitations : List String
deriving DecidableEq

/-- Embedding of the `push_unique` lambda inside `EnsureMinimumEvidence`:
append the entry unless its metric name is already present. -/
def PushUniqueEvidence (evidence : List DiagnosisEvidence) (metric value detail : String) :
    List DiagnosisEvidence :=
  if evidence.any fun item => item.metric = metric then evidence
  else evidence ++ [⟨metric, value, detail⟩]

/-- Embedding of `EnsureMinimumEvidence` from `src/diagnosis/rules.cpp`. -/
def EnsureMinimumEvidence (workload : WorkloadRunResult) (perf : PerfStatResult)
    (strace : StraceSummaryResult) (evidence : List DiagnosisEvidence) : List DiagnosisEvidence :=
  if 2 ≤ evidence.length then evidence
  else
    let evidence :=
      PushUniqueEvidence evidence "wall_time_sec" (FormatNumber workload.wall_time_sec 6)
        "Elapsed runtime from fallback timer."
    let collector_states :=
      "perf=" ++ perf.status.status ++ ", strace=" ++ strace.status.status ++ ", proc=" ++
        workload.proc_collector_status.status
    PushUniqueEvidence evidence "collector_statuses" collector_states
      "Collector availability influences diagnosis confidence."

/-- Rule cascade of `DiagnoseRun` (`src/diagnosis/rules.cpp`), factored over
the already-computed derived metrics (the source binds them in the local
`derived`).  Every condition, label, confidence bound and evidence entry
mirrors the source branch for branch. -/
def DiagnoseRunWithDerived (derived : DerivedMetrics) (workload : WorkloadRunResult)
    (perf : PerfStatResult) (strace : StraceSummaryResult) (mode : String) : DiagnosisResult :=
  let limitations := PopulateLimitations workload perf strace mode []
  let memory_pressure : Bool :=
    derived.has_max_rss_mb && decide (derived.max_rss_mb ≥ 512) &&
      ((derived.has_page_fault_rate && decide (derived.page_fault_rate ≥ 500)) ||
       (derived.has_voluntary_switch_rate && decide (derived.voluntary_switch_rate ≥ 5000)))
  let core : DiagnosisResult :=
    if memory_pressure then
      { label := "memory-pressure"
        confidence :=
          if derived.has_page_fault_rate && decide (derived.page_fault_rate ≥ 2000) then "high"
          else "medium"
        evidence :=
          [⟨"max_rss_mb", FormatNumber derived.max_rss_mb 1,
            "Peak RSS sampled from /proc/<pid>/status."⟩] ++
          (if derived.has_page_fault_rate then
            [⟨"page_faults_per_sec", FormatNumber derived.page_fault_rate 1,
              "Page fault activity is elevated for this runtime."⟩]
          else []) ++
          (if derived.has_voluntary_switch_rate then
            [⟨"voluntary_ctx_switches_per_sec", FormatNumber derived.voluntary_switch_rate 1,
              "High switching can indicate stalls around memory activity."⟩]
          else [])
        limitations := limitations }
    else if derived.has_syscall_share && derived.has_io_share &&
        decide (derived.syscall_share ≥ 0.15) && decide (derived.io_share ≥ 0.60) then
      { label := "io-bound"
        confidence :=
          if decide (derived.syscall_share ≥ 0.30) && decide (derived.io_share ≥ 0.75) then "high"
          else "medium"
        evidence :=
          [⟨"syscall_time_share", FormatNumber derived.syscall_share 3,
            "Share of wall time spent inside syscalls."⟩,
           ⟨"io_syscall_share", FormatNumber derived.io_share 3,
            "I/O-related syscalls dominate syscall time."⟩] ++
          (if derived.has_top_syscall_share then
            [⟨"top_syscall",
              derived.top_syscall_name ++ " (" ++ FormatNumber derived.top_syscall_time_sec 6 ++ "s)",
              "Most expensive syscall entry in strace summary."⟩]
          else [])
        limitations := limitations }
    else if derived.has_syscall_share && decide (derived.syscall_share ≥ 0.15) then
      { label := "syscall-heavy"
        confidence := if decide (derived.syscall_share ≥ 0.35) then "high" else "medium"
        evidence :=
          [⟨"syscall_time_share", FormatNumber derived.syscall_share 3,
            "Share of wall time spent inside syscalls."⟩] ++
          (if derived.has_top_syscall_share then
            [⟨"top_syscall_share", FormatNumber derived.top_syscall_share 3,
              "Top syscall concentration within strace summary."⟩,
             ⟨"top_syscall",
              derived.top_syscall_name ++ " (" ++ FormatNumber derived.top_syscall_time_sec 6 ++ "s)",
              "Most expensive syscall entry in strace summary."⟩]
          else [])
        limitations := limitations }
    else if derived.has_ipc && decide (derived.ipc ≥ 0.90) &&
        (!derived.has_syscall_share || decide (derived.syscall_share ≤ 0.10)) &&
        (!derived.has_cache_miss_rate || decide (derived.cache_miss_rate ≤ 0.05)) then
      { label := "cpu-bound"
        confidence :=
          if decide (derived.ipc ≥ 1.20) &&
              (!derived.has_syscall_share || decide (derived.syscall_share ≤ 0.05)) then "high"
          else "medium"
        evidence :=
          [⟨"ipc", FormatNumber derived.ipc 3, "Instructions per cycle from perf counters."⟩] ++
          (if derived.has_syscall_share then
            [⟨"syscall_time_share", FormatNumber derived.syscall_share 3,
              "Low syscall share suggests compute-heavy execution."⟩]
          else []) ++
          (if derived.has_cache_miss_rate then
            [⟨"cache_miss_per_instruction", FormatNumber derived.cache_miss_rate 6,
              "Cache-miss density from perf counters."⟩]
          else [])
        limitations := limitations }
    else
      { label := "inconclusive"
        confidence := "low"
        evidence :=
          [⟨"wall_time_sec", FormatNumber workload.wall_time_sec 6,
            "Elapsed runtime from fallback timer."⟩,
           ⟨"exit_code", toString workload.exit_code,
            "Non-zero exit or limited telemetry can prevent clear attribution."⟩]
        limitations :=
          AddUniqueLimitation limitations
            "No rule crossed confidence thresholds for CPU, syscall, I/O, or memory pressure." }
  { core with evidence := EnsureMinimumEvidence workload perf strace core.evidence }

/-- Embedding of `DiagnoseRun` from `src/diagnosis/rules.cpp`. -/
def DiagnoseRun (workload : WorkloadRunResult) (perf : PerfStatResult)
    (strace : StraceSummaryResult) (mode : String) : DiagnosisResult :=
  DiagnoseRunWithDerived (ComputeDerived workload perf strace) workload perf strace mode

/-- Memory-pressure guard as the spec states it (§4.4 rule 1):
`max_rss_mb ≥ 512 AND (page_fault_rate ≥ 500 OR voluntary_switch_rate ≥ 5000)`,
each inequality read over a present metric. -/
def SpecMemoryPressureGuard (d : DerivedMetrics) : Bool :=
  d.has_max_rss_mb && decide (d.max_rss_mb ≥ 512) &&
    ((d.has_page_fault_rate && decide (d.page_fault_rate ≥ 500)) ||
     (d.has_voluntary_switch_rate && decide (d.voluntary_switch_rate ≥ 5000)))

/-- I/O-bound guard as the spec states it (§4.4 rule 2):
`syscall_share ≥ 0.15 AND io_share ≥ 0.60` over present metrics. -/
def SpecIoBoundGuard (d : DerivedMetrics) : Bool :=
  d.has_syscall_share && d.has_io_share &&
    decide (d.syscall_share ≥ 0.15) && decide (d.io_share ≥ 0.60)

/-- Syscall-heavy guard as the spec states it (§4.4 rule 3):
`syscall_share ≥ 0.15` over a present metric. -/
def SpecSyscallHeavyGuard (d : DerivedMetrics) : Bool :=
  d.has_syscall_share && decide (d.syscall_share ≥ 0.15)

/-- CPU-bound guard as the spec states it (§4.4 rule 4): `IPC ≥ 0.90 AND
(syscall_share absent or ≤ 0.10) AND (cache_miss_rate absent or ≤ 0.05)`. -/
def SpecCpuBoundGuard (d : DerivedMetrics) : Bool :=
  d.has_ipc && decide (d.ipc ≥ 0.90) &&
    (!d.has_syscall_share || decide (d.syscall_share ≤ 0.10)) &&
    (!d.has_cache_miss_rate || decide (d.cache_miss_rate ≤ 0.05))

/-- Verdict label of the spec's fixed-priority cascade (§4.4): the first
guard that holds, in the order memory-pressure, io-bound, syscall-heavy,
cpu-bound, determines the label; otherwise inconclusive. -/
def SpecCascadeLabel (d : DerivedMetrics) : String :=
  if SpecMemoryPressureGuard d then "memory-pressure"
  else if SpecIoBoundGuard d then "io-bound"
  else if SpecSyscallHeavyGuard d then "syscall-heavy"
  else if SpecCpuBoundGuard d then "cpu-bound"
  else "inconclusive"

/-- Confidence of the spec's cascade (§4.4), following the same priority
order; the inconclusive default carries confidence low. -/
def SpecCascadeConfidence (d : DerivedMetrics) : String :=
  if SpecMemoryPressureGuard d then
    if d.has_page_fault_rate && decide (d.page_fault_rate ≥ 2000) then "high" else "medium"
  else if SpecIoBoundGuard d then
    if decide (d.syscall_share ≥ 0.30) && decide (d.io_share ≥ 0.75) then "high" else "medium"
  else if SpecSyscallHeavyGuard d then
    if decide (d.syscall_share ≥ 0.35) then "high" else "medium"
  else if SpecCpuBoundGuard d then
    if decide (d.ipc ≥ 1.20) && (!d.has_syscall_share || decide (d.syscall_share ≤ 0.05)) then "high"
    else "medium"
  else "low"

/-- Embedding of `Median` from `src/commands/compare.cpp`: sort ascending,
middle element for an odd count, arithmetic mean of the two middle elements
for an even count.  `std::sort` is modelled by `List.insertionSort`, which
produces the same sorted permutation. -/
def Median (values : List Rat) : Rat :=
  let sorted := values.insertionSort (· ≤ ·)
  let n := values.length
  if n % 2 = 1 then sorted.getD (n / 2) 0
  else (sorted.getD (n / 2 - 1) 0 + sorted.getD (n / 2) 0) / 2

/-- Duration-comparison figures computed by `HandleCompare`
(`src/commands/compare.cpp`, lines 297-308). -/
structure CompareFigures where
  native_median : Rat
  qemu_median : Rat
  delta_duration_sec : Rat
  slowdown_factor : Rat
  throughput_ratio_qemu_vs_native : Rat
  throughput_change_pct_qemu_vs_native : Rat
deriving DecidableEq

/-- Embedding of the median/figure block of `HandleCompare`: both medians
must be strictly positive or the comparison fails (exit code 2 in the CLI,
modelled as `none`); otherwise the four derived figures are produced. -/
def CompareDurations (native_durations qemu_durations : List Rat) : Option CompareFigures :=
  let native_median := Median native_durations
  let qemu_median := Median qemu_durations
  if native_median ≤ 0 ∨ qemu_median ≤ 0 then none
  else
    let throughput := native_median / qemu_median
    some
      { native_median := native_median
        qemu_median := qemu_median
        delta_duration_sec := qemu_median - native_median
        slowdown_factor := qemu_median / native_median
        throughput_ratio_qemu_vs_native := throughput
        throughput_change_pct_qemu_vs_native := (throughput - 1) * 100 }

/-- Embedding of `JoinCommaSeparated` from `src/qemu.cpp` /
`src/commands/compare.cpp`. -/
def JoinCommaSeparated (values : List String) : String :=
  String.intercalate ", " values

/-- Embedding of `SupportedQemuArchSelectors` from `src/qemu.cpp`. -/
def SupportedQemuArchSelectors : List String :=
  ["x86_64", "aarch64", "riscv64"]

/-- Embedding of `NormalizeQemuArchSelector` from `src/qemu.cpp`. -/
def NormalizeQemuArchSelector (selector : String) : Option String :=
  let lower := ToLower (Trim selector)
  if lower = "x86_64" ∨ lower = "amd64" ∨ lower = "x64" then some "x86_64"
  else if lower = "aarch64" ∨ lower = "arm64" then some "aarch64"
  else if lower = "riscv64" ∨ lower = "riscv" ∨ lower = "rv64" then some "riscv64"
  else none

/-- Fields of a persisted run artifact as the best-effort text scanner of
`src/util.cpp` exposes them to `LoadRunSample`: each lookup either finds the
field or reports it absent (spec §6 treats the scanner as an external
collaborator).  The six counters follow the fixed `kCounters` list. -/
structure ArtifactFields where
  kind : Option String
  mode : Option String
  command : Option String
  duration_sec : Option Rat
  perf_status : Option String
  strace_status : Option String
  proc_status : Option String
  cycles : Option Rat
  instructions : Option Rat
  branches : Option Rat
  branch_misses : Option Rat
  cache_misses : Option Rat
  page_faults : Option Rat
  qemu_arch_raw : Option String
deriving DecidableEq

/-- Parsed subset of a run artifact (`RunSample` in
`src/commands/compare.cpp`). -/
structure RunSample where
  path : String
  mode : String
  command : String
  duration_sec : Rat
  qemu_arch : Option String
  perf_status : String
  strace_status : String
  proc_status : String
  perf_counters : List (String × Rat)
deriving DecidableEq

/-- Counter map assembly of `LoadRunSample`: walk the fixed counter list and
keep the values the scanner found. -/
def assembleCounters (fields : ArtifactFields) : List (String × Rat) :=
  ([("cycles", fields.cycles), ("instructions", fields.instructions),
    ("branches", fields.branches), ("branch_misses", fields.branch_misses),
    ("cache_misses", fields.cache_misses), ("page_faults", fields.page_faults)]).filterMap
    fun nv =>
      match nv.2 with
      | some v => some (nv.1, v)
      | none => none

/-- Embedding of `LoadRunSample` from `src/commands/compare.cpp` over the
already-scanned artifact fields (file reading and the regex text scanner are
the external collaborators of spec §6; a file-read failure happens before
this logic).  Validation order and every error message mirror the source;
a `false` return with `*error` set becomes `Except.error`. -/
def LoadRunSample (path : String) (expected_mode : Option String) (fields : ArtifactFields) :
    Except String RunSample :=
  match fields.kind with
  | none => Except.error "artifact is not a run_result JSON"
  | some kind =>
    if kind ≠ "run_result" then Except.error "artifact is not a run_result JSON"
    else
      match fields.mode, fields.command, fields.duration_sec with
      | some mode, some command, some duration =>
        if expected_mode.isSome ∧ mode ≠ expected_mode.getD "" then
          Except.error ("expected mode '" ++ expected_mode.getD "" ++ "' but got '" ++ mode ++ "'")
        else
          let sample : RunSample :=
            { path := path
              mode := mode
              command := command
              duration_sec := duration
              qemu_arch := none
              perf_status := fields.perf_status.getD "unknown"
              strace_status := fields.strace_status.getD "unknown"
              proc_status := fields.proc_status.getD "unknown"
              perf_counters := assembleCounters fields }
          if mode = "qemu" then
            match fields.qemu_arch_raw with
            | none => Except.error "qemu run artifact missing qemu.arch"
            | some raw_arch =>
              match NormalizeQemuArchSelector raw_arch with
              | none =>
                Except.error ("unsupported qemu arch '" ++ raw_arch ++ "' in artifact; supported: " ++
                  JoinCommaSeparated SupportedQemuArchSelectors)
              | some normalized => Except.ok { sample with qemu_arch := some normalized }
          else Except.ok sample
      | _, _, _ =>
        Except.error "artifact missing one of required fields: mode, command, duration_sec"

/-! Helper lemmas about the character-level utilities. -/

theorem toNat_ofNat_lt (n : Nat) (h : n < 55296) : (Char.ofNat n).toNat = n := by
  unfold Char.ofNat
  split
  · rfl
  · omega

theorem toLowerChar_toNat_of_upper (c : Char) (h : 65 ≤ c.toNat ∧ c.toNat ≤ 90) :
    (ToLowerChar c).toNat = c.toNat + 32 := by
  unfold ToLowerChar
  rw [if_pos h, toNat_ofNat_lt]
  · omega
  · omega

theorem toLowerChar_eq_self (c : Char) (h : ¬(65 ≤ c.toNat ∧ c.toNat ≤ 90)) :
    ToLowerChar c = c := by
  unfold ToLowerChar
  rw [if_neg h]

theorem isTrimWs_eq_false_of_toNat (c : Char)
    (h : ¬(c.toNat = 32 ∨ c.toNat = 9 ∨ c.toNat = 13 ∨ c.toNat = 10)) : isTrimWs c = false := by
  have h32 : c ≠ ' ' := fun hc => h (Or.inl (by rw [hc]; rfl))
  have h9 : c ≠ '\t' := fun hc => h (Or.inr (Or.inl (by rw [hc]; rfl)))
  have h13 : c ≠ '\r' := fun hc => h (Or.inr (Or.inr (Or.inl (by rw [hc]; rfl))))
  have h10 : c ≠ '\n' := fun hc => h (Or.inr (Or.inr (Or.inr (by rw [hc]; rfl))))
  simp [isTrimWs, h32, h9, h13, h10]

theorem isTrimWs_toLowerChar (c : Char) : isTrimWs (ToLowerChar c) = isTrimWs c := by
  by_cases h : 65 ≤ c.toNat ∧ c.toNat ≤ 90
  · have h1 := toLowerChar_toNat_of_upper c h
    rw [isTrimWs_eq_false_of_toNat (ToLowerChar c) (by omega),
        isTrimWs_eq_false_of_toNat c (by omega)]
  · rw [toLowerChar_eq_self c h]

theorem toLowerChar_idem (c : Char) : ToLowerChar (ToLowerChar c) = ToLowerChar c := by
  by_cases h : 65 ≤ c.toNat ∧ c.toNat ≤ 90
  · have h1 := toLowerChar_toNat_of_upper c h
    exact toLowerChar_eq_self (ToLowerChar c) (by omega)
  · rw [toLowerChar_eq_self c h, toLowerChar_eq_self c h]

theorem dropWhile_map_lower (l : List Char) :
    (l.map ToLowerChar).dropWhile isTrimWs = (l.dropWhile isTrimWs).map ToLowerChar := by
  have hfun : isTrimWs ∘ ToLowerChar = isTrimWs := funext isTrimWs_toLowerChar
  rw [List.dropWhile_map, hfun]

theorem trimChars_map_lower (l : List Char) :
    trimChars (l.map ToLowerChar) = (trimChars l).map ToLowerChar := by
  unfold trimChars
  rw [dropWhile_map_lower, ← List.map_reverse, dropWhile_map_lower, ← List.map_reverse]

theorem dropWhile_eq_self_of_head (p : Char → Bool) (l : List Char)
    (h : ∀ a, l.head? = some a → p a = false) : l.dropWhile p = l := by
  cases l with
  | nil => rfl
  | cons a t =>
    rw [List.dropWhile_cons, h a rfl]
    simp

theorem head_dropWhile_false (p : Char → Bool) (l : List Char) :
    ∀ a, (l.dropWhile p).head? = some a → p a = false := by
  intro a ha
  have hmat := List.head?_dropWhile_not p l
  rw [ha] at hmat
  exact hmat

theorem trimChars_idem (l : List Char) : trimChars (trimChars l) = trimChars l := by
  show List.rdropWhile isTrimWs
      ((List.rdropWhile isTrimWs (l.dropWhile isTrimWs)).dropWhile isTrimWs) =
    List.rdropWhile isTrimWs (l.dropWhile isTrimWs)
  obtain ⟨r, hr⟩ := List.rdropWhile_prefix isTrimWs (l.dropWhile isTrimWs)
  have hdrop : (List.rdropWhile isTrimWs (l.dropWhile isTrimWs)).dropWhile isTrimWs =
      List.rdropWhile isTrimWs (l.dropWhile isTrimWs) := by
    apply dropWhile_eq_self_of_head
    intro a ha
    apply head_dropWhile_false isTrimWs l a
    rw [← hr]
    cases hu : List.rdropWhile isTrimWs (l.dropWhile isTrimWs) with
    | nil =>
      rw [hu] at ha
      exact absurd ha (by simp)
    | cons b u =>
      rw [hu] at ha
      simp only [List.head?_cons, Option.some.injEq] at ha
      subst ha
      rfl
  rw [hdrop, List.rdropWhile_idempotent]

theorem toLower_map_idem (l : List Char) :
    (l.map ToLowerChar).map ToLowerChar = l.map ToLowerChar := by
  rw [List.map_map]
  have hfun : ToLowerChar ∘ ToLowerChar = ToLowerChar := funext toLowerChar_idem
  rw [hfun]

theorem lowerTrim_fixpoint (s : String) :
    ToLower (Trim (ToLower (Trim s))) = ToLower (Trim s) := by
  unfold ToLower Trim
  simp only
  rw [trimChars_map_lower, trimChars_idem, toLower_map_idem]

/-! Helper lemmas about splitting and character membership. -/

theorem splitChar_eq_splitIfChar (sep : Char) (l : List Char) :
    splitChar sep l = splitIfChar (fun c => c = sep) l := by
  induction l with
  | nil => rfl
  | cons a rest ih =>
    unfold splitChar splitIfChar
    by_cases h : a = sep <;> simp [h, ih]

theorem splitIfChar_subset (p : Char → Bool) (l : List Char) :
    ∀ t ∈ splitIfChar p l, t ⊆ l := by
  induction l with
  | nil =>
    intro t ht
    unfold splitIfChar at ht
    simp only [List.mem_singleton] at ht
    subst ht
    intro c hc
    exact absurd hc (List.not_mem_nil _)
  | cons a rest ih =>
    intro t ht
    unfold splitIfChar at ht
    by_cases hpa : p a
    · rw [if_pos hpa] at ht
      rcases List.mem_cons.mp ht with h | h
      · subst h
        intro c hc
        exact absurd hc (List.not_mem_nil _)
      · intro c hc
        exact List.mem_cons_of_mem a (ih t h hc)
    · rw [if_neg hpa] at ht
      cases hsp : splitIfChar p rest with
      | nil =>
        rw [hsp] at ht
        simp only [List.mem_singleton] at ht
        subst ht
        intro c hc
        simp only [List.mem_singleton] at hc
        simp [hc]
      | cons t0 ts =>
        rw [hsp] at ht
        rcases List.mem_cons.mp ht with h | h
        · subst h
          intro c hc
          rcases List.mem_cons.mp hc with h | h
          · simp [h]
          · exact List.mem_cons_of_mem a (ih t0 (by rw [hsp]; exact List.mem_cons_self t0 ts) h)
        · intro c hc
          exact List.mem_cons_of_mem a (ih t (by rw [hsp]; exact List.mem_cons_of_mem t0 h) hc)

theorem trimChars_subset (l : List Char) : trimChars l ⊆ l := by
  intro c hc
  unfold trimChars at hc
  rw [List.mem_reverse] at hc
  have h1 := (List.dropWhile_sublist (l := (l.dropWhile isTrimWs).reverse) isTrimWs).subset hc
  rw [List.mem_reverse] at h1
  exact (List.dropWhile_sublist isTrimWs).subset h1

theorem mem_getLines_subset (text : String) (line : String) (h : line ∈ getLines text) :
    line.data ⊆ text.data := by
  unfold getLines at h
  rcases List.mem_map.mp h with ⟨t, ht, rfl⟩
  rw [splitChar_eq_splitIfChar] at ht
  exact splitIfChar_subset _ _ t ht

theorem mem_splitWhitespace_subset (s tok : String) (h : tok ∈ SplitWhitespace s) :
    tok.data ⊆ s.data := by
  unfold SplitWhitespace at h
  rcases List.mem_map.mp h with ⟨t, ht, rfl⟩
  exact splitIfChar_subset _ _ t (List.mem_filter.mp ht).1

theorem getD_mem_of_lt (l : List String) (i : Nat) (h : i < l.length) : l.getD i "" ∈ l := by
  rw [List.getD_eq_getElem l "" h]
  exact List.getElem_mem h

/-! Helper lemmas about the numeric parsing models. -/

theorem splitSign_no_minus (l : List Char) (h : '-' ∉ l) :
    (splitSign l).1 = false ∧ ∀ c ∈ (splitSign l).2, c ∈ l := by
  unfold splitSign
  split
  · rename_i rest
    exact absurd (List.mem_cons_self '-' rest) h
  · rename_i rest
    exact ⟨rfl, fun c hc => List.mem_cons_of_mem _ hc⟩
  · exact ⟨rfl, fun c hc => hc⟩

theorem applyExponent_nonneg (m : Rat) (l : List Char) (hm : 0 ≤ m) :
    0 ≤ applyExponent m l := by
  unfold applyExponent
  split
  · rename_i e rest
    by_cases h1 : e = 'e' ∨ e = 'E'
    · rw [if_pos h1]
      rcases hsp : splitSign rest with ⟨eneg, rest2⟩
      simp only
      split_ifs <;> first
        | exact hm
        | exact div_nonneg hm (by positivity)
        | exact mul_nonneg hm (by positivity)
    · rw [if_neg h1]
      exact hm
  · exact hm

theorem stodModel_nonneg (input : List Char) (h : '-' ∉ input) (q : Rat)
    (hq : stodModel input = some q) : 0 ≤ q := by
  have hsub : '-' ∉ input.dropWhile isStreamWs :=
    fun hm => h ((List.dropWhile_sublist isStreamWs).subset hm)
  have hneg := (splitSign_no_minus (input.dropWhile isStreamWs) hsub).1
  simp only [stodModel] at hq
  rcases hsp : splitSign (input.dropWhile isStreamWs) with ⟨neg, l⟩
  rw [hsp] at hq hneg
  simp only at hq hneg
  subst hneg
  simp only [Bool.false_eq_true, if_false] at hq
  split at hq
  · exact absurd hq (by simp)
  · simp only [Option.some.injEq] at hq
    subst hq
    exact applyExponent_nonneg _ _ (by positivity)

theorem stollModel_nonneg (input : List Char) (h : '-' ∉ input) (v : Int)
    (hv : stollModel input = some v) : 0 ≤ v := by
  have hsub : '-' ∉ input.dropWhile isStreamWs :=
    fun hm => h ((List.dropWhile_sublist isStreamWs).subset hm)
  have hneg := (splitSign_no_minus (input.dropWhile isStreamWs) hsub).1
  simp only [stollModel] at hv
  rcases hsp : splitSign (input.dropWhile isStreamWs) with ⟨neg, l⟩
  rw [hsp] at hv hneg
  simp only at hv hneg
  subst hneg
  simp only [Bool.false_eq_true, if_false] at hv
  split at hv
  · exact absurd hv (by simp)
  · split_ifs at hv
    simp only [Option.some.injEq] at hv
    subst hv
    positivity

theorem no_minus_commasToDots (l : List Char) (h : '-' ∉ l) : '-' ∉ commasToDots l := by
  intro hm
  rcases List.mem_map.mp hm with ⟨a, ha, hae⟩
  by_cases hc : a = ','
  · rw [if_pos hc] at hae
    exact absurd hae.symm (by decide)
  · rw [if_neg hc] at hae
    exact h (hae ▸ ha)

theorem no_minus_removeCommas (l : List Char) (h : '-' ∉ l) : '-' ∉ removeCommas l :=
  fun hm => h (List.mem_of_mem_filter hm)

theorem no_minus_removeSpaces (l : List Char) (h : '-' ∉ l) : '-' ∉ removeSpaces l :=
  fun hm => h (List.mem_of_mem_filter hm)

theorem no_minus_trimChars (l : List Char) (h : '-' ∉ l) : '-' ∉ trimChars l :=
  fun hm => h (trimChars_subset l hm)

theorem parseDouble_nonneg (value : String) (h : '-' ∉ value.data) (q : Rat)
    (hq : ParseDouble value = some q) : 0 ≤ q := by
  have h1 : '-' ∉ removeSpaces (trimChars value.data) :=
    no_minus_removeSpaces _ (no_minus_trimChars _ h)
  simp only [ParseDouble] at hq
  split_ifs at hq
  · exact stodModel_nonneg _ (no_minus_commasToDots _ h1) q hq
  · exact stodModel_nonneg _ (no_minus_removeCommas _ h1) q hq
  · exact stodModel_nonneg _ h1 q hq

theorem parseLongLong_nonneg (value : String) (h : '-' ∉ value.data) (v : Int)
    (hv : ParseLongLong value = some v) : 0 ≤ v :=
  stollModel_nonneg _ h v hv

/-! Helper lemmas about the strace summary parser. -/

set_option maxHeartbeats 1000000 in
theorem straceLine_entries (st : StraceSummaryData × Bool) (line : String) :
    (straceLine st line).1.entries = st.1.entries ++ (straceRowEntry line).toList := by
  unfold straceLine straceRowEntry
  by_cases h1 : ((Trim line).isEmpty || StartsWith (Trim line) "% time" ||
      StartsWith (Trim line) "------") = true
  · rw [if_pos h1, if_pos h1]
    simp
  · rw [if_neg h1, if_neg h1]
    by_cases h2 : (SplitWhitespace (Trim line)).length < 5
    · rw [if_pos h2, if_pos h2]
      simp
    · rw [if_neg h2, if_neg h2]
      cases h3 : ParseDouble ((SplitWhitespace (Trim line)).getD 1 "") with
      | none => simp
      | some seconds =>
        simp only
        by_cases h4 : (SplitWhitespace (Trim line)).getLastD "" = "total"
        · rw [if_pos h4, if_pos h4]
          simp
        · rw [if_neg h4, if_neg h4]
          cases h5 : ParseLongLong ((SplitWhitespace (Trim line)).getD 3 "") with
          | none => simp
          | some calls => simp

theorem strace_fold_entries (lines : List String) :
    ∀ st : StraceSummaryData × Bool,
      (lines.foldl straceLine st).1.entries = st.1.entries ++ lines.filterMap straceRowEntry := by
  induction lines with
  | nil =>
    intro st
    simp
  | cons l ls ih =>
    intro st
    simp only [List.foldl_cons, List.filterMap_cons]
    rw [ih, straceLine_entries]
    cases straceRowEntry l <;> simp

theorem strace_entries_eq (text : String) :
    (ParseStraceSummaryOutput text).1.entries = (getLines text).filterMap straceRowEntry := by
  unfold ParseStraceSummaryOutput
  rw [strace_fold_entries]
  simp [StraceSummaryData.init]

theorem straceRowEntry_five_errors (line : String) (e : StraceSyscallEntry)
    (hlen : (SplitWhitespace (Trim line)).length = 5)
    (he : straceRowEntry line = some e) : e.errors = 0 := by
  unfold straceRowEntry at he
  split at he
  · exact absurd he (by simp)
  · split at he
    · exact absurd he (by simp)
    · split at he
      · exact absurd he (by simp)
      · split at he
        · exact absurd he (by simp)
        · split at he
          · exact absurd he (by simp)
          · simp only [Option.some.injEq] at he
            subst he
            simp [hlen]

theorem straceRowEntry_six_errors (line : String) (e : StraceSyscallEntry)
    (hlen : (SplitWhitespace (Trim line)).length ≥ 6)
    (he : straceRowEntry line = some e) :
    e.errors = (ParseLongLong ((SplitWhitespace (Trim line)).getD 4 "")).getD 0 := by
  unfold straceRowEntry at he
  split at he
  · exact absurd he (by simp)
  · split at he
    · exact absurd he (by simp)
    · split at he
      · exact absurd he (by simp)
      · split at he
        · exact absurd he (by simp)
        · split at he
          · exact absurd he (by simp)
          · simp only [Option.some.injEq] at he
            subst he
            simp only [if_pos hlen]
            cases ParseLongLong ((SplitWhitespace (Trim line)).getD 4 "") <;> simp

theorem straceLine_total_row (st : StraceSummaryData × Bool) (line : String) (t : Rat)
    (h1 : ¬ ((Trim line).isEmpty || StartsWith (Trim line) "% time" ||
      StartsWith (Trim line) "------") = true)
    (h2 : ¬ (SplitWhitespace (Trim line)).length < 5)
    (h3 : ParseDouble ((SplitWhitespace (Trim line)).getD 1 "") = some t)
    (h4 : (SplitWhitespace (Trim line)).getLastD "" = "total") :
    straceLine st line = ({ st.1 with total_time_sec := t, has_total_time := true }, true) ∧
    straceRowEntry line = none := by
  constructor
  · unfold straceLine
    rw [if_neg h1, if_neg h2, h3]
    simp only [if_pos h4]
  · unfold straceRowEntry
    rw [if_neg h1, if_neg h2, h3]
    simp only [if_pos h4]

theorem straceRowEntry_nonneg (line : String) (e : StraceSyscallEntry)
    (hm : ∀ i ∈ [1, 3, 4], '-' ∉ ((SplitWhitespace (Trim line)).getD i "").data)
    (he : straceRowEntry line = some e) :
    0 ≤ e.calls ∧ 0 ≤ e.time_sec ∧ 0 ≤ e.errors := by
  unfold straceRowEntry at he
  split at he
  · exact absurd he (by simp)
  · split at he
    · exact absurd he (by simp)
    · split at he
      · exact absurd he (by simp)
      · rename_i seconds h3
        split at he
        · exact absurd he (by simp)
        · split at he
          · exact absurd he (by simp)
          · rename_i calls h5
            simp only [Option.some.injEq] at he
            subst he
            refine ⟨?_, ?_, ?_⟩
            · exact parseLongLong_nonneg _ (hm 3 (by decide)) calls h5
            · exact parseDouble_nonneg _ (hm 1 (by decide)) seconds h3
            · simp only
              split_ifs with h6
              · cases h7 : ParseLongLong ((SplitWhitespace (Trim line)).getD 4 "") with
                | none => simp
                | some ev => simpa using parseLongLong_nonneg _ (hm 4 (by decide)) ev h7
              · simp

/-! Helper lemmas about the diagnosis engine, the median and artifact loading. -/

theorem ensure_length (w : WorkloadRunResult) (p : PerfStatResult) (s : StraceSummaryResult)
    (ev : List DiagnosisEvidence) : 2 ≤ (EnsureMinimumEvidence w p s ev).length := by
  rcases ev with _ | ⟨x, _ | ⟨y, rest⟩⟩
  · simp [EnsureMinimumEvidence, PushUniqueEvidence]
  · unfold EnsureMinimumEvidence PushUniqueEvidence
    rw [if_neg (by simp)]
    by_cases hx : x.metric = "wall_time_sec"
    · simp [hx]
    · simp only [List.any_cons, List.any_nil, Bool.or_false, decide_eq_true_eq, hx,
        if_neg, if_false]
      split_ifs <;> simp
  · simp [EnsureMinimumEvidence]

theorem ensure_of_two (w : WorkloadRunResult) (p : PerfStatResult) (s : StraceSummaryResult)
    (ev : List DiagnosisEvidence) (h : 2 ≤ ev.length) :
    EnsureMinimumEvidence w p s ev = ev := by
  unfold EnsureMinimumEvidence
  rw [if_pos h]

theorem ensure_inject_fresh (w : WorkloadRunResult) (p : PerfStatResult)
    (s : StraceSummaryResult) (ev : List DiagnosisEvidence) (h : ev.length < 2)
    (hw : ∀ e ∈ ev, ¬ e.metric = "wall_time_sec")
    (hc : ∀ e ∈ ev, ¬ e.metric = "collector_statuses") :
    EnsureMinimumEvidence w p s ev =
      ev ++ [⟨"wall_time_sec", FormatNumber w.wall_time_sec 6,
              "Elapsed runtime from fallback timer."⟩,
             ⟨"collector_statuses",
              "perf=" ++ p.status.status ++ ", strace=" ++ s.status.status ++ ", proc=" ++
                w.proc_collector_status.status,
              "Collector availability influences diagnosis confidence."⟩] := by
  have hpush1 : PushUniqueEvidence ev "wall_time_sec" (FormatNumber w.wall_time_sec 6)
      "Elapsed runtime from fallback timer." =
      ev ++ [⟨"wall_time_sec", FormatNumber w.wall_time_sec 6,
        "Elapsed runtime from fallback timer."⟩] := by
    unfold PushUniqueEvidence
    rw [if_neg (by
      simp only [List.any_eq_true, decide_eq_true_eq]
      rintro ⟨x, hx, hpx⟩
      exact hw x hx hpx)]
  have hpush2 : ∀ tail : List DiagnosisEvidence,
      (∀ e ∈ tail, ¬ e.metric = "collector_statuses") →
      PushUniqueEvidence (ev ++ tail) "collector_statuses"
        ("perf=" ++ p.status.status ++ ", strace=" ++ s.status.status ++ ", proc=" ++
          w.proc_collector_status.status)
        "Collector availability influences diagnosis confidence." =
      (ev ++ tail) ++ [⟨"collector_statuses",
        "perf=" ++ p.status.status ++ ", strace=" ++ s.status.status ++ ", proc=" ++
          w.proc_collector_status.status,
        "Collector availability influences diagnosis confidence."⟩] := by
    intro tail htail
    unfold PushUniqueEvidence
    rw [if_neg (by
      simp only [List.any_eq_true, decide_eq_true_eq]
      rintro ⟨x, hx, hpx⟩
      rcases List.mem_append.mp hx with hx | hx
      · exact hc x hx hpx
      · exact htail x hx hpx)]
  simp only [EnsureMinimumEvidence]
  rw [if_neg (by omega), hpush1, hpush2 _ (by simp)]
  simp

theorem ensure_skip_wall (w : WorkloadRunResult) (p : PerfStatResult) (s : StraceSummaryResult)
    (ev : List DiagnosisEvidence) (h : ev.length < 2)
    (hw : ∃ e ∈ ev, e.metric = "wall_time_sec") :
    EnsureMinimumEvidence w p s ev =
      PushUniqueEvidence ev "collector_statuses"
        ("perf=" ++ p.status.status ++ ", strace=" ++ s.status.status ++ ", proc=" ++
          w.proc_collector_status.status)
        "Collector availability influences diagnosis confidence." := by
  have hfirst : PushUniqueEvidence ev "wall_time_sec" (FormatNumber w.wall_time_sec 6)
      "Elapsed runtime from fallback timer." = ev := by
    unfold PushUniqueEvidence
    rw [if_pos (by
      simp only [List.any_eq_true, decide_eq_true_eq]
      exact hw)]
  simp only [EnsureMinimumEvidence]
  rw [if_neg (by omega), hfirst]

theorem diag_evidence_shape (d : DerivedMetrics) (w : WorkloadRunResult) (p : PerfStatResult)
    (s : StraceSummaryResult) (mode : String) :
    ∃ ev0, (DiagnoseRunWithDerived d w p s mode).evidence = EnsureMinimumEvidence w p s ev0 :=
  ⟨_, rfl⟩

set_option maxHeartbeats 2000000 in
theorem diag_cascade_eq (d : DerivedMetrics) (w : WorkloadRunResult) (p : PerfStatResult)
    (s : StraceSummaryResult) (mode : String) :
    (DiagnoseRunWithDerived d w p s mode).label = SpecCascadeLabel d ∧
    (DiagnoseRunWithDerived d w p s mode).confidence = SpecCascadeConfidence d := by
  simp only [DiagnoseRunWithDerived, SpecCascadeLabel, SpecCascadeConfidence,
    SpecMemoryPressureGuard, SpecIoBoundGuard, SpecSyscallHeavyGuard, SpecCpuBoundGuard]
  split_ifs <;> exact ⟨rfl, rfl⟩

theorem median_perm (l₁ l₂ : List Rat) (h : l₁.Perm l₂) : Median l₁ = Median l₂ := by
  unfold Median
  have hs : l₁.insertionSort (· ≤ ·) = l₂.insertionSort (· ≤ ·) :=
    List.eq_of_perm_of_sorted
      ((List.perm_insertionSort _ l₁).trans (h.trans (List.perm_insertionSort _ l₂).symm))
      (List.sorted_insertionSort _ l₁) (List.sorted_insertionSort _ l₂)
  rw [hs, h.length_eq]

theorem median_sorted (l : List Rat) (h : l.Sorted (· ≤ ·)) :
    Median l = if l.length % 2 = 1 then l.getD (l.length / 2) 0
      else (l.getD (l.length / 2 - 1) 0 + l.getD (l.length / 2) 0) / 2 := by
  unfold Median
  rw [h.insertionSort_eq]

theorem compare_none_iff (nd qd : List Rat) :
    CompareDurations nd qd = none ↔ Median nd ≤ 0 ∨ Median qd ≤ 0 := by
  simp only [CompareDurations]
  split_ifs with h <;> simp_all

theorem compare_some_fields (nd qd : List Rat) (f : CompareFigures)
    (h : CompareDurations nd qd = some f) :
    f.native_median = Median nd ∧ f.qemu_median = Median qd ∧
    f.delta_duration_sec = f.qemu_median - f.native_median ∧
    f.slowdown_factor = f.qemu_median / f.native_median ∧
    f.throughput_ratio_qemu_vs_native = f.native_median / f.qemu_median ∧
    f.throughput_change_pct_qemu_vs_native = (f.throughput_ratio_qemu_vs_native - 1) * 100 := by
  simp only [CompareDurations] at h
  split_ifs at h
  simp only [Option.some.injEq] at h
  subst h
  simp

theorem canonicalize_thousands (v : String)
    (h1 : (removeSpaces (trimChars v.data)).count ',' > 0)
    (h2 : (removeSpaces (trimChars v.data)).count '.' = 0)
    (h3 : (removeSpaces (trimChars v.data)).count ',' ≥ 2 ∨
      digitsAfterLastComma (removeSpaces (trimChars v.data)) = 3) :
    CanonicalizeNumericText v = ⟨removeCommas (removeSpaces (trimChars v.data))⟩ := by
  simp only [CanonicalizeNumericText]
  rw [if_pos ⟨h1, h2⟩, if_pos h3]

theorem canonicalize_decimal (v : String)
    (h1 : (removeSpaces (trimChars v.data)).count ',' > 0)
    (h2 : (removeSpaces (trimChars v.data)).count '.' = 0)
    (h3 : ¬ ((removeSpaces (trimChars v.data)).count ',' ≥ 2 ∨
      digitsAfterLastComma (removeSpaces (trimChars v.data)) = 3)) :
    CanonicalizeNumericText v = ⟨commasToDots (removeSpaces (trimChars v.data))⟩ := by
  simp only [CanonicalizeNumericText]
  rw [if_pos ⟨h1, h2⟩, if_neg h3]

theorem canonicalize_mixed (v : String)
    (h1 : (removeSpaces (trimChars v.data)).count ',' > 0)
    (h2 : (removeSpaces (trimChars v.data)).count '.' > 0) :
    CanonicalizeNumericText v = ⟨removeCommas (removeSpaces (trimChars v.data))⟩ := by
  simp only [CanonicalizeNumericText]
  rw [if_neg (by omega), if_pos ⟨h1, h2⟩]

theorem canonicalize_plain (v : String)
    (h1 : (removeSpaces (trimChars v.data)).count ',' = 0) :
    CanonicalizeNumericText v = ⟨removeSpaces (trimChars v.data)⟩ := by
  simp only [CanonicalizeNumericText]
  rw [if_neg (by omega), if_neg (by omega)]

theorem parseNumericCounter_only_if (v : String) (q : Rat)
    (h : ParseNumericCounter v = some q) :
    stodModel ((CanonicalizeNumericText v).data.filter isNumericCounterChar) = some q := by
  simp only [ParseNumericCounter] at h
  split_ifs at h
  exact h

theorem joinSupported_eq : JoinCommaSeparated SupportedQemuArchSelectors =
    "x86_64, aarch64, riscv64" := by decide

theorem normalize_mem_supported (s a : String) (h : NormalizeQemuArchSelector s = some a) :
    a ∈ SupportedQemuArchSelectors := by
  simp only [NormalizeQemuArchSelector] at h
  split_ifs at h <;> simp_all [SupportedQemuArchSelectors]

theorem loadRunSample_arch_error (path : String) (fields : ArtifactFields) (cmd : String)
    (dur : Rat) (raw : String)
    (hk : fields.kind = some "run_result") (hm : fields.mode = some "qemu")
    (hc : fields.command = some cmd) (hd : fields.duration_sec = some dur)
    (ha : fields.qemu_arch_raw = some raw) (hn : NormalizeQemuArchSelector raw = none) :
    LoadRunSample path (some "qemu") fields =
      Except.error ("unsupported qemu arch '" ++ raw ++
        "' in artifact; supported: x86_64, aarch64, riscv64") := by
  unfold LoadRunSample
  rw [hk, hm, hc, hd]
  simp only
  rw [if_neg (by decide), if_neg (by simp), if_pos trivial, ha]
  simp only
  rw [hn, joinSupported_eq]
  simp [String.append_assoc]

theorem loadRunSample_arch_ok (path : String) (fields : ArtifactFields) (cmd : String)
    (dur : Rat) (raw a : String)
    (hk : fields.kind = some "run_result") (hm : fields.mode = some "qemu")
    (hc : fields.command = some cmd) (hd : fields.duration_sec = some dur)
    (ha : fields.qemu_arch_raw = some raw) (hn : NormalizeQemuArchSelector raw = some a) :
    ∃ sample, LoadRunSample path (some "qemu") fields = Except.ok sample ∧
      sample.qemu_arch = some a := by
  unfold LoadRunSample
  rw [hk, hm, hc, hd]
  simp only
  rw [if_neg (by decide), if_neg (by simp), if_pos trivial, ha]
  simp only
  rw [hn]
  exact ⟨_, rfl, rfl⟩

/-! Claim theorems. -/

/-- Claim C1, counterexample to the claim as stated: with the syscall-trace
collector in status error (timed out) yet carrying a populated summary
(non-empty entries and positive total time), `ComputeDerived` still marks
`io_share` (and `top_syscall_share`) present, although the claim requires
every derived metric to be absent when its collector status is not ok. -/
theorem C1_counterexample :
    (ComputeDerived
      ⟨0, "exit_code", 1, ⟨false, 0, false, 0, false, 0⟩, ⟨"ok", ""⟩⟩
      ⟨⟨"ok", ""⟩, 0, false, PerfStatData.init, ""⟩
      ⟨⟨"error", "strace collector timed out"⟩, 124, true,
        ⟨[⟨"read", 1, 1, 0⟩], 1, true⟩, ""⟩).has_io_share = true ∧
    (⟨⟨"error", "strace collector timed out"⟩, 124, true,
        ⟨[⟨"read", 1, 1, 0⟩], 1, true⟩, ""⟩ : StraceSummaryResult).status.status = "error" := by
  with_unfolding_all decide

/-- Claim C1, amended: each derived metric is present exactly under the
source's own gate.  IPC, cache_miss_rate, syscall_share and page_fault_rate
do require the owning collector's status to be ok together with a strictly
positive denominator; but io_share and top_syscall_share require only a
non-empty entry list and strictly positive total time (the strace status is
not consulted), voluntary_switch_rate requires only counter presence and
positive wall time (the proc sampler status is not consulted), and max_rss_mb
requires only presence of max_rss_kb (no status and no denominator check). -/
theorem C1_derived_metric_gating (w : WorkloadRunResult) (p : PerfStatResult)
    (s : StraceSummaryResult) :
    ((ComputeDerived w p s).has_ipc = true ↔
      (p.status.status = "ok" ∧ p.data.has_cycles = true ∧ p.data.cycles > 0 ∧
        p.data.has_instructions = true)) ∧
    ((ComputeDerived w p s).has_cache_miss_rate = true ↔
      (p.status.status = "ok" ∧ p.data.has_cache_misses = true ∧ p.data.has_instructions = true ∧
        p.data.instructions > 0)) ∧
    ((ComputeDerived w p s).has_syscall_share = true ↔
      (s.status.status = "ok" ∧ s.data.has_total_time = true ∧ w.wall_time_sec > 0)) ∧
    ((ComputeDerived w p s).has_io_share = true ↔
      (¬ s.data.entries.isEmpty = true ∧ s.data.has_total_time = true ∧
        s.data.total_time_sec > 0)) ∧
    ((ComputeDerived w p s).has_top_syscall_share = true ↔
      (¬ s.data.entries.isEmpty = true ∧ s.data.has_total_time = true ∧
        s.data.total_time_sec > 0)) ∧
    ((ComputeDerived w p s).has_page_fault_rate = true ↔
      (p.status.status = "ok" ∧ p.data.has_page_faults = true ∧ w.wall_time_sec > 0)) ∧
    ((ComputeDerived w p s).has_voluntary_switch_rate = true ↔
      (w.proc_sample.has_voluntary_ctxt_switches = true ∧ w.wall_time_sec > 0)) ∧
    ((ComputeDerived w p s).has_max_rss_mb = true ↔ w.proc_sample.has_max_rss_kb = true) := by
  unfold ComputeDerived
  split_ifs <;> simp_all

/-- Claim C2, counterexample to the claim as stated: when the time bound
trips (wrapper applied, exit code 124), the captured partial output is still
fed to the parser and the parsed data structure is populated from it, while
the claim says it stays unpopulated. -/
theorem C2_counterexample :
    (CollectPerfStat true ⟨124, "1000,,cycles\n"⟩).timed_out = true ∧
    (CollectPerfStat true ⟨124, "1000,,cycles\n"⟩).data.has_cycles = true ∧
    (CollectPerfStat true ⟨124, "1000,,cycles\n"⟩).data.cycles = 1000 := by
  with_unfolding_all decide

/-- Claim C2, amended: for both tool-driven collectors, when the external
time bound trips (timeout wrapper applied and decoded exit code 124) the
outcome has timed_out = true and status error with the timeout reason, and
the status determination checks the timeout mark before parse success; the
captured output, however, is parsed unconditionally and the parsed data
structure is whatever the parser extracted from it. -/
theorem C2_timeout_behaviour (ct : Bool) (run : CommandResult)
    (hct : ct = true) (hec : run.exit_code = 124) :
    (CollectPerfStat ct run).timed_out = true ∧
    (CollectPerfStat ct run).status.status = "error" ∧
    (CollectPerfStat ct run).status.reason = "perf collector timed out" ∧
    (CollectPerfStat ct run).data = (ParsePerfStatCsvOutput run.output).1 ∧
    (CollectStraceSummary ct run).timed_out = true ∧
    (CollectStraceSummary ct run).status.status = "error" ∧
    (CollectStraceSummary ct run).status.reason = "strace collector timed out" ∧
    (CollectStraceSummary ct run).data = (ParseStraceSummaryOutput run.output).1 := by
  subst hct
  unfold CollectPerfStat CollectStraceSummary
  simp [hec]

/-- Witness for C2 at a concrete timed-out run. -/
theorem C2_timeout_witness :
    (CollectPerfStat true ⟨124, ""⟩).status.reason = "perf collector timed out" ∧
    (CollectStraceSummary true ⟨124, ""⟩).status.reason = "strace collector timed out" :=
  ⟨(C2_timeout_behaviour true ⟨124, ""⟩ rfl rfl).2.2.1,
   (C2_timeout_behaviour true ⟨124, ""⟩ rfl rfl).2.2.2.2.2.2.1⟩

/-- Claim C3: the diagnosis rule cascade evaluates its rules in the fixed
order memory-pressure, io-bound, syscall-heavy, cpu-bound; the first guard
that holds determines label and confidence, and when no guard holds the
verdict is inconclusive with confidence low.  Stated as equality between the
engine's label/confidence and the spec-worded first-match cascade, both over
the factored rule step and over `DiagnoseRun` itself; in particular metrics
satisfying both the memory-pressure and the io-bound guard yield the label
memory-pressure. -/
theorem C3_rule_cascade (d : DerivedMetrics) (w : WorkloadRunResult) (p : PerfStatResult)
    (s : StraceSummaryResult) (mode : String) :
    (DiagnoseRunWithDerived d w p s mode).label = SpecCascadeLabel d ∧
    (DiagnoseRunWithDerived d w p s mode).confidence = SpecCascadeConfidence d ∧
    (DiagnoseRun w p s mode).label = SpecCascadeLabel (ComputeDerived w p s) ∧
    (DiagnoseRun w p s mode).confidence = SpecCascadeConfidence (ComputeDerived w p s) :=
  ⟨(diag_cascade_eq d w p s mode).1, (diag_cascade_eq d w p s mode).2,
   (diag_cascade_eq (ComputeDerived w p s) w p s mode).1,
   (diag_cascade_eq (ComputeDerived w p s) w p s mode).2⟩

/-- Claim C4: every verdict produced by `DiagnoseRun` carries at least two
evidence entries; and `EnsureMinimumEvidence` leaves a list of two or more
entries unchanged, while for a shorter list it appends a wall_time_sec entry
and then a combined collector-statuses entry, in that order, skipping an
entry whose metric name is already present. -/
theorem C4_minimum_evidence (w : WorkloadRunResult) (p : PerfStatResult)
    (s : StraceSummaryResult) (mode : String) (ev : List DiagnosisEvidence) :
    2 ≤ (DiagnoseRun w p s mode).evidence.length ∧
    (2 ≤ ev.length → EnsureMinimumEvidence w p s ev = ev) ∧
    (ev.length < 2 → (∀ e ∈ ev, ¬ e.metric = "wall_time_sec") →
      (∀ e ∈ ev, ¬ e.metric = "collector_statuses") →
      EnsureMinimumEvidence w p s ev =
        ev ++ [⟨"wall_time_sec", FormatNumber w.wall_time_sec 6,
                "Elapsed runtime from fallback timer."⟩,
               ⟨"collector_statuses",
                "perf=" ++ p.status.status ++ ", strace=" ++ s.status.status ++ ", proc=" ++
                  w.proc_collector_status.status,
                "Collector availability influences diagnosis confidence."⟩]) ∧
    (ev.length < 2 → (∃ e ∈ ev, e.metric = "wall_time_sec") →
      EnsureMinimumEvidence w p s ev =
        PushUniqueEvidence ev "collector_statuses"
          ("perf=" ++ p.status.status ++ ", strace=" ++ s.status.status ++ ", proc=" ++
            w.proc_collector_status.status)
          "Collector availability influences diagnosis confidence.") := by
  refine ⟨?_, ensure_of_two w p s ev, ensure_inject_fresh w p s ev, ensure_skip_wall w p s ev⟩
  obtain ⟨ev0, he⟩ := diag_evidence_shape (ComputeDerived w p s) w p s mode
  show 2 ≤ (DiagnoseRunWithDerived (ComputeDerived w p s) w p s mode).evidence.length
  rw [he]
  exact ensure_length w p s ev0

/-- Witness for C4 at a concrete run and at the empty evidence list. -/
theorem C4_minimum_evidence_witness :
    2 ≤ (DiagnoseRun ⟨0, "exit_code", 1, ⟨false, 0, false, 0, false, 0⟩, ⟨"ok", ""⟩⟩
      ⟨⟨"ok", ""⟩, 0, false, PerfStatData.init, ""⟩
      ⟨⟨"ok", ""⟩, 0, false, StraceSummaryData.init, ""⟩ "native").evidence.length ∧
    EnsureMinimumEvidence ⟨0, "exit_code", 1, ⟨false, 0, false, 0, false, 0⟩, ⟨"ok", ""⟩⟩
      ⟨⟨"ok", ""⟩, 0, false, PerfStatData.init, ""⟩
      ⟨⟨"ok", ""⟩, 0, false, StraceSummaryData.init, ""⟩ [] =
      [⟨"wall_time_sec", "1.000000", "Elapsed runtime from fallback timer."⟩,
       ⟨"collector_statuses", "perf=ok, strace=ok, proc=ok",
        "Collector availability influences diagnosis confidence."⟩] :=
  ⟨(C4_minimum_evidence ⟨0, "exit_code", 1, ⟨false, 0, false, 0, false, 0⟩, ⟨"ok", ""⟩⟩
      ⟨⟨"ok", ""⟩, 0, false, PerfStatData.init, ""⟩
      ⟨⟨"ok", ""⟩, 0, false, StraceSummaryData.init, ""⟩ "native" []).1,
   ((C4_minimum_evidence ⟨0, "exit_code", 1, ⟨false, 0, false, 0, false, 0⟩, ⟨"ok", ""⟩⟩
      ⟨⟨"ok", ""⟩, 0, false, PerfStatData.init, ""⟩
      ⟨⟨"ok", ""⟩, 0, false, StraceSummaryData.init, ""⟩ "native" []).2.2.1 (by decide)
      (by simp) (by simp)).trans (by with_unfolding_all decide)⟩

/-- Claim C5: the comparison engine's median sorts ascending (its value
depends only on the multiset of durations, and on an already-sorted list it
takes the middle element for an odd count or the mean of the two middle
elements for an even count); [1,2,3] gives 2 and [1,2,3,4] gives 2.5; the
comparison fails exactly when a median is not strictly positive; on success
the figures satisfy delta = qemu − native, slowdown = qemu/native,
throughput_ratio = native/qemu and throughput_change_pct = (ratio − 1)·100;
and native median 1.0 with qemu median 4.0 yields slowdown 4.0, ratio 0.25
and change −75 percent. -/
theorem C5_median_comparison :
    (∀ l₁ l₂ : List Rat, l₁.Perm l₂ → Median l₁ = Median l₂) ∧
    (∀ l : List Rat, l.Sorted (· ≤ ·) →
      Median l = if l.length % 2 = 1 then l.getD (l.length / 2) 0
        else (l.getD (l.length / 2 - 1) 0 + l.getD (l.length / 2) 0) / 2) ∧
    Median [1, 2, 3] = 2 ∧ Median [1, 2, 3, 4] = 5 / 2 ∧
    (∀ nd qd : List Rat, CompareDurations nd qd = none ↔ Median nd ≤ 0 ∨ Median qd ≤ 0) ∧
    (∀ (nd qd : List Rat) (f : CompareFigures), CompareDurations nd qd = some f →
      f.native_median = Median nd ∧ f.qemu_median = Median qd ∧
      f.delta_duration_sec = f.qemu_median - f.native_median ∧
      f.slowdown_factor = f.qemu_median / f.native_median ∧
      f.throughput_ratio_qemu_vs_native = f.native_median / f.qemu_median ∧
      f.throughput_change_pct_qemu_vs_native =
        (f.throughput_ratio_qemu_vs_native - 1) * 100) ∧
    CompareDurations [1] [4] = some ⟨1, 4, 3, 4, 1 / 4, -75⟩ := by
  refine ⟨median_perm, median_sorted, ?_, ?_, compare_none_iff, compare_some_fields, ?_⟩
  · with_unfolding_all decide
  · with_unfolding_all decide
  · with_unfolding_all decide

/-- Witness for C5 at concrete duration lists. -/
theorem C5_median_comparison_witness :
    Median [3, 1, 2] = Median [1, 2, 3] ∧
    (Median [1, 2, 3] = if (3 : Nat) % 2 = 1 then [(1 : Rat), 2, 3].getD (3 / 2) 0
      else ([(1 : Rat), 2, 3].getD (3 / 2 - 1) 0 + [(1 : Rat), 2, 3].getD (3 / 2) 0) / 2) ∧
    (CompareDurations [1] [4] = none ↔ Median [1] ≤ 0 ∨ Median [4] ≤ 0) ∧
    (CompareFigures.mk 1 4 3 4 (1 / 4) (-75)).slowdown_factor =
      (CompareFigures.mk 1 4 3 4 (1 / 4) (-75)).qemu_median /
        (CompareFigures.mk 1 4 3 4 (1 / 4) (-75)).native_median :=
  ⟨C5_median_comparison.1 [3, 1, 2] [1, 2, 3] (by with_unfolding_all decide),
   C5_median_comparison.2.1 [1, 2, 3] (by
      simp [List.sorted_cons]
      norm_num),
   C5_median_comparison.2.2.2.2.1 [1] [4],
   (C5_median_comparison.2.2.2.2.2.1 [1] [4] ⟨1, 4, 3, 4, 1 / 4, -75⟩
     C5_median_comparison.2.2.2.2.2.2).2.2.2.1⟩

/-- Claim C6: a perf counter value field is accepted only if canonicalization
(followed by the numeric-character cleanup) yields a float the `stod` model
parses; canonicalization strips spaces after trimming, and on the space-free
text: with commas and no dot it drops the commas when there are at least two
commas or exactly three characters follow the final comma and otherwise
replaces the single comma by a decimal point; with both commas and a dot it
drops the commas; with no comma it changes nothing.  In particular "1,234"
parses to 1234.0 and "1,23" parses to 1.23. -/
theorem C6_numeric_canonicalization :
    (∀ (v : String) (q : Rat), ParseNumericCounter v = some q →
      stodModel ((CanonicalizeNumericText v).data.filter isNumericCounterChar) = some q) ∧
    (∀ v : String, (removeSpaces (trimChars v.data)).count ',' > 0 →
      (removeSpaces (trimChars v.data)).count '.' = 0 →
      ((removeSpaces (trimChars v.data)).count ',' ≥ 2 ∨
        digitsAfterLastComma (removeSpaces (trimChars v.data)) = 3) →
      CanonicalizeNumericText v = ⟨removeCommas (removeSpaces (trimChars v.data))⟩) ∧
    (∀ v : String, (removeSpaces (trimChars v.data)).count ',' > 0 →
      (removeSpaces (trimChars v.data)).count '.' = 0 →
      ¬ ((removeSpaces (trimChars v.data)).count ',' ≥ 2 ∨
        digitsAfterLastComma (removeSpaces (trimChars v.data)) = 3) →
      CanonicalizeNumericText v = ⟨commasToDots (removeSpaces (trimChars v.data))⟩) ∧
    (∀ v : String, (removeSpaces (trimChars v.data)).count ',' > 0 →
      (removeSpaces (trimChars v.data)).count '.' > 0 →
      CanonicalizeNumericText v = ⟨removeCommas (removeSpaces (trimChars v.data))⟩) ∧
    (∀ v : String, (removeSpaces (trimChars v.data)).count ',' = 0 →
      CanonicalizeNumericText v = ⟨removeSpaces (trimChars v.data)⟩) ∧
    ParseNumericCounter "1,234" = some 1234 ∧
    ParseNumericCounter "1,23" = some (123 / 100) := by
  refine ⟨parseNumericCounter_only_if, canonicalize_thousands, canonicalize_decimal,
    canonicalize_mixed, canonicalize_plain, ?_, ?_⟩
  · with_unfolding_all decide
  · with_unfolding_all decide

/-- Witness for C6 at the two documented inputs. -/
theorem C6_numeric_canonicalization_witness :
    CanonicalizeNumericText "1,234" =
      String.mk (removeCommas (removeSpaces (trimChars ("1,234").data))) ∧
    CanonicalizeNumericText "1,23" =
      String.mk (commasToDots (removeSpaces (trimChars ("1,23").data))) ∧
    stodModel ((CanonicalizeNumericText "1,234").data.filter isNumericCounterChar) =
      some 1234 :=
  ⟨C6_numeric_canonicalization.2.1 "1,234" (by decide) (by decide) (by decide),
   C6_numeric_canonicalization.2.2.1 "1,23" (by decide) (by decide) (by decide),
   C6_numeric_canonicalization.1 "1,234" 1234
     (by with_unfolding_all decide)⟩

/-- Claim C7: the syscall summary parser appends entries in input row order
(the entry list equals the in-order per-row extraction over the input lines,
never re-sorted); a data row with exactly 5 whitespace tokens yields an entry
with errors = 0; a row with at least 6 tokens yields errors equal to the
parsed fifth token, defaulting to 0 when that token does not parse; and a row
whose last token is the literal total records total_time_sec and contributes
no entry. -/
theorem C7_strace_rows :
    (∀ text : String,
      (ParseStraceSummaryOutput text).1.entries =
        (getLines text).filterMap straceRowEntry) ∧
    (∀ (line : String) (e : StraceSyscallEntry),
      (SplitWhitespace (Trim line)).length = 5 → straceRowEntry line = some e →
      e.errors = 0) ∧
    (∀ (line : String) (e : StraceSyscallEntry),
      (SplitWhitespace (Trim line)).length ≥ 6 → straceRowEntry line = some e →
      e.errors = (ParseLongLong ((SplitWhitespace (Trim line)).getD 4 "")).getD 0) ∧
    (∀ (st : StraceSummaryData × Bool) (line : String) (t : Rat),
      ¬ ((Trim line).isEmpty || StartsWith (Trim line) "% time" ||
        StartsWith (Trim line) "------") = true →
      ¬ (SplitWhitespace (Trim line)).length < 5 →
      ParseDouble ((SplitWhitespace (Trim line)).getD 1 "") = some t →
      (SplitWhitespace (Trim line)).getLastD "" = "total" →
      straceLine st line = ({ st.1 with total_time_sec := t, has_total_time := true }, true) ∧
      straceRowEntry line = none) :=
  ⟨strace_entries_eq, straceRowEntry_five_errors, straceRowEntry_six_errors,
   straceLine_total_row⟩

/-- Witness for C7 at concrete summary rows. -/
theorem C7_strace_rows_witness :
    ((straceRowEntry " 25.00    0.010000          10      1000           read").getD
      ⟨"", 0, 0, 0⟩).errors = 0 ∧
    ((straceRowEntry " 75.00    0.030000         100       300         4 futex").getD
      ⟨"", 0, 0, 0⟩).errors =
      (ParseLongLong (((SplitWhitespace
        (Trim " 75.00    0.030000         100       300         4 futex"))).getD 4 "")).getD 0 ∧
    straceRowEntry "100.00    0.040000                  1300         4 total" = none := by
  have h1 : straceRowEntry " 25.00    0.010000          10      1000           read" =
      some ⟨"read", 1000, 1 / 100, 0⟩ := by with_unfolding_all decide
  have h2 : straceRowEntry " 75.00    0.030000         100       300         4 futex" =
      some ⟨"futex", 300, 3 / 100, 4⟩ := by with_unfolding_all decide
  refine ⟨?_, ?_, ?_⟩
  · rw [h1]
    exact C7_strace_rows.2.1 _ ⟨"read", 1000, 1 / 100, 0⟩ (by with_unfolding_all decide) h1
  · rw [h2]
    exact C7_strace_rows.2.2.1 _ ⟨"futex", 300, 3 / 100, 4⟩ (by with_unfolding_all decide) h2
  · exact (C7_strace_rows.2.2.2 (StraceSummaryData.init, false)
      "100.00    0.040000                  1300         4 total" (1 / 25)
      (by with_unfolding_all decide) (by with_unfolding_all decide)
      (by with_unfolding_all decide) (by with_unfolding_all decide)).2

/-- Claim C8, counterexample to the claim as stated: on an input row whose
time column is negative, the parser emits an entry with time_sec < 0; the
data-model bounds are not enforced by the code. -/
theorem C8_counterexample :
    ((ParseStraceSummaryOutput "10.0 -1.0 x 5 read").1.entries.headD
      ⟨"", 0, 0, 0⟩).time_sec < 0 ∧
    (ParseStraceSummaryOutput "10.0 -1.0 x 5 read").1.entries.length = 1 := by
  with_unfolding_all decide

/-- Claim C8, amended: the parser copies token values verbatim and never
clamps them; whenever every line's numeric columns — the whitespace tokens at
indices 1, 3 and 4 (seconds, calls, errors) of the trimmed line — contain
none of the characters that introduce a sign or one of the NaN, infinity or
hexadecimal spellings `strtod` accepts, every produced entry satisfies the
data-model bounds calls ≥ 0, time_sec ≥ 0 and errors ≥ 0. -/
theorem C8_entry_bounds (text : String)
    (hm : ∀ line ∈ getLines text, ∀ i ∈ [1, 3, 4],
      ∀ c ∈ ((SplitWhitespace (Trim line)).getD i "").data,
        c ∉ ['-', 'n', 'N', 'i', 'I', 'x', 'X'])
    (e : StraceSyscallEntry) (he : e ∈ (ParseStraceSummaryOutput text).1.entries) :
    0 ≤ e.calls ∧ 0 ≤ e.time_sec ∧ 0 ≤ e.errors := by
  rw [strace_entries_eq] at he
  rcases List.mem_filterMap.mp he with ⟨line, hline, hrow⟩
  exact straceRowEntry_nonneg line e
    (fun i hi hc => hm line hline i hi '-' hc (by decide)) hrow

/-- Witness for C8 at a concrete input whose numeric columns exclude the
sign, NaN, infinity and hexadecimal characters. -/
theorem C8_entry_bounds_witness :
    0 ≤ (StraceSyscallEntry.mk "read" 5 2 0).calls ∧
    0 ≤ (StraceSyscallEntry.mk "read" 5 2 0).time_sec ∧
    0 ≤ (StraceSyscallEntry.mk "read" 5 2 0).errors :=
  C8_entry_bounds "10.0 2.0 7 5 read" (by decide) ⟨"read", 5, 2, 0⟩
    (by with_unfolding_all decide)

/-- Claim C9: a qemu-mode artifact's architecture tag must normalize, via the
aliases amd64/x64 to x86_64, arm64 to aarch64 and riscv/rv64 to riscv64, into
the supported set {x86_64, aarch64, riscv64}; every other tag makes the load
fail with an error message naming the supported set, while a normalizable tag
loads successfully with the normalized architecture recorded. -/
theorem C9_qemu_arch_validation :
    (∀ s a : String, NormalizeQemuArchSelector s = some a → a ∈ SupportedQemuArchSelectors) ∧
    (∀ s : String, ToLower (Trim s) = "x86_64" ∨ ToLower (Trim s) = "amd64" ∨
      ToLower (Trim s) = "x64" → NormalizeQemuArchSelector s = some "x86_64") ∧
    (∀ s : String, ToLower (Trim s) = "aarch64" ∨ ToLower (Trim s) = "arm64" →
      NormalizeQemuArchSelector s = some "aarch64") ∧
    (∀ s : String, ToLower (Trim s) = "riscv64" ∨ ToLower (Trim s) = "riscv" ∨
      ToLower (Trim s) = "rv64" → NormalizeQemuArchSelector s = some "riscv64") ∧
    (∀ s : String, (∀ a ∈ ["x86_64", "amd64", "x64", "aarch64", "arm64", "riscv64",
      "riscv", "rv64"], ToLower (Trim s) ≠ a) → NormalizeQemuArchSelector s = none) ∧
    (∀ (path : String) (fields : ArtifactFields) (cmd : String) (dur : Rat) (raw : String),
      fields.kind = some "run_result" → fields.mode = some "qemu" →
      fields.command = some cmd → fields.duration_sec = some dur →
      fields.qemu_arch_raw = some raw → NormalizeQemuArchSelector raw = none →
      LoadRunSample path (some "qemu") fields =
        Except.error ("unsupported qemu arch '" ++ raw ++
          "' in artifact; supported: x86_64, aarch64, riscv64")) ∧
    (∀ (path : String) (fields : ArtifactFields) (cmd : String) (dur : Rat) (raw a : String),
      fields.kind = some "run_result" → fields.mode = some "qemu" →
      fields.command = some cmd → fields.duration_sec = some dur →
      fields.qemu_arch_raw = some raw → NormalizeQemuArchSelector raw = some a →
      ∃ sample, LoadRunSample path (some "qemu") fields = Except.ok sample ∧
        sample.qemu_arch = some a) := by
  refine ⟨normalize_mem_supported, ?_, ?_, ?_, ?_, loadRunSample_arch_error,
    loadRunSample_arch_ok⟩
  · intro s hl
    simp only [NormalizeQemuArchSelector]
    rw [if_pos hl]
  · intro s hl
    simp only [NormalizeQemuArchSelector]
    rw [if_neg ?_, if_pos hl]
    rcases hl with h | h <;> rw [h] <;> decide
  · intro s hl
    simp only [NormalizeQemuArchSelector]
    rw [if_neg ?_, if_neg ?_, if_pos hl]
    · rcases hl with h | h | h <;> rw [h] <;> decide
    · rcases hl with h | h | h <;> rw [h] <;> decide
  · intro s hl
    simp only [NormalizeQemuArchSelector]
    rw [if_neg ?_, if_neg ?_, if_neg ?_]
    · rintro (h | h | h) <;> exact hl _ (by simp) h
    · rintro (h | h) <;> exact hl _ (by simp) h
    · rintro (h | h | h) <;> exact hl _ (by simp) h

/-- Witness for C9 at a concrete unsupported and a concrete supported tag. -/
theorem C9_qemu_arch_validation_witness :
    NormalizeQemuArchSelector "amd64" = some "x86_64" ∧
    NormalizeQemuArchSelector "sparc" = none ∧
    LoadRunSample "run.json" (some "qemu")
      ⟨some "run_result", some "qemu", some "true", some 1, none, none, none,
        none, none, none, none, none, none, some "sparc"⟩ =
      Except.error
        "unsupported qemu arch 'sparc' in artifact; supported: x86_64, aarch64, riscv64" := by
  refine ⟨C9_qemu_arch_validation.2.1 "amd64" (by decide), ?_, ?_⟩
  · exact C9_qemu_arch_validation.2.2.2.2.1 "sparc" (by decide)
  · have h := C9_qemu_arch_validation.2.2.2.2.2.1 "run.json"
      ⟨some "run_result", some "qemu", some "true", some 1, none, none, none,
        none, none, none, none, none, none, some "sparc"⟩ "true" 1 "sparc"
      rfl rfl rfl rfl rfl (C9_qemu_arch_validation.2.2.2.2.1 "sparc" (by decide))
    exact h.trans (by rfl)

/-- Claim C10: architecture selector normalization is insensitive to letter
case and surrounding whitespace: normalizing any string equals normalizing
its lowercased, trimmed form; in particular "AMD64" normalizes to x86_64 and
" Arm64 " to aarch64. -/
theorem C10_normalize_case_insensitive (s : String) :
    NormalizeQemuArchSelector s = NormalizeQemuArchSelector (ToLower (Trim s)) ∧
    NormalizeQemuArchSelector "AMD64" = some "x86_64" ∧
    NormalizeQemuArchSelector " Arm64 " = some "aarch64" := by
  refine ⟨?_, by decide, by decide⟩
  unfold NormalizeQemuArchSelector
  rw [lowerTrim_fixpoint]

end TraceLab
